import Mathlib

/-!
Shallow embedding of the chat UI component in src/client/src/App.js.

The component keeps six pieces of React state (message, response, file,
dragActive, csvData, showPreview).  Event handlers mutate that state
synchronously and may launch asynchronous work (a fetch to the query
endpoint, a fetch to the upload endpoint, a FileReader read).  Each
asynchronous operation is modelled as a pending record carrying exactly
the data its completion callback closes over; completion of the
operation is a separate state transition.  A system state couples the
component state with the lists of outstanding operations, and an event
relation describes every user action and callback delivery.
-/

namespace App

/-- Kind tag of a chat message: "user", "bot" or "bot-chart" in the source. -/
inductive MessageType where
  | user
  | bot
  | botChart
deriving DecidableEq, Repr

/-- Opaque chart specification produced by the backend and passed through
verbatim to the rendering widget; its internal schema is not interpreted. -/
structure ChartSpec where
  payload : String
deriving DecidableEq, Repr

/-- One chat message, as built in App.js: a plain object with a type tag
and either a text field or a chartSpec field. -/
structure Message where
  type : MessageType
  text : Option String := none
  chartSpec : Option ChartSpec := none
deriving DecidableEq, Repr

/-- A candidate file from a picker change event or a drop event: its
declared MIME type and the text content a FileReader would deliver. -/
structure FileData where
  type : String
  content : String
deriving DecidableEq, Repr

/-- Typed cell value after automatic type inference.
Modelled from the spec: the CSV library coerces numbers, booleans and
literal empty cells; everything else remains a string.  Dates, which no
claim touches, are left in the string case. -/
inductive CellValue where
  | null
  | boolean (b : Bool)
  | number (n : Int)
  | str (s : String)
deriving DecidableEq, Repr

/-- One preview row: column names in header order, each with its
inferred cell value. -/
abbrev Row := List (String × CellValue)

/-- Component state of App: the six useState slots. -/
structure AppState where
  message : String
  response : List Message
  file : Option FileData
  dragActive : Bool
  csvData : Option (List Row)
  showPreview : Bool
deriving DecidableEq, Repr

/-- Initial component state: empty input, seed bot greeting, no file,
no drag, no parsed data, preview hidden. -/
def initialState : AppState :=
  { message := ""
    response := [{ type := .bot
                   text := some "Upload a CSV file and then ask visualization questions" }]
    file := none
    dragActive := false
    csvData := none
    showPreview := false }

/-- Data the query fetch callback in sendMessage closes over: the
response list as it was at dispatch (captured before the user message
was folded into state), the freshly built user message, and the prompt
string sent as the JSON body field. -/
structure PendingQuery where
  snapshot : List Message
  newMessage : Message
  prompt : String
deriving DecidableEq, Repr

/-- Decoded JSON body of a query reply: a response text and an optional
chart specification. -/
structure QueryResponse where
  response : String
  chart : Option ChartSpec
deriving DecidableEq, Repr

/-- Data the FileReader onload callback closes over: the text of the
file being read. -/
structure PendingParse where
  content : String
deriving DecidableEq, Repr

/-- Data the upload fetch catch callback in sendFile closes over: the
response list as it was when sendFile ran. -/
structure PendingUpload where
  snapshot : List Message
deriving DecidableEq, Repr

/-- handleMessage: typing into the input field stores its value. -/
def handleMessage (t : String) (s : AppState) : AppState :=
  { s with message := t }

/-- sendMessage, synchronous part.  A no-op when the input text is the
empty string; otherwise appends a user message, clears the input, and
launches the query fetch, whose callback closes over the old response
list, the new user message and the prompt. -/
def sendMessage (s : AppState) : AppState × Option PendingQuery :=
  if s.message = "" then (s, none)
  else
    let newMessage : Message := { type := .user, text := some s.message }
    ({ s with response := s.response ++ [newMessage], message := "" },
     some { snapshot := s.response, newMessage := newMessage, prompt := s.message })

/-- sendMessage, response callback.  Builds the bot text message and,
when the decoded body has a chart field, also a bot-chart message; the
new response list is produced from the captured snapshot, not from the
live state. -/
def queryThen (p : PendingQuery) (d : QueryResponse) (s : AppState) : AppState :=
  let botResponse : Message := { type := .bot, text := some d.response }
  match d.chart with
  | some c =>
      let botChartResponse : Message := { type := .botChart, chartSpec := some c }
      { s with response := p.snapshot ++ [p.newMessage, botChartResponse, botResponse] }
  | none =>
      { s with response := p.snapshot ++ [p.newMessage, botResponse] }

/-- isCSV: in the source, file && file.type === "text/csv"; a missing
(undefined) file short-circuits to a falsy value. -/
def isCSV (file : Option FileData) : Bool :=
  match file with
  | none => false
  | some f => f.type == "text/csv"

/-- Bot message appended when a submitted file is not CSV-typed. -/
def csvErrorMessage : Message :=
  { type := .bot, text := some "Error: Please upload a valid CSV file." }

/-- Bot message appended when the upload request fails. -/
def uploadErrorMessage : Message :=
  { type := .bot, text := some "Error processing file." }

/-- sendFile: when a file is present, launches the upload fetch; its
catch callback closes over the response list as of this render. -/
def sendFile (uploadedFile : Option FileData) (s : AppState) : Option PendingUpload :=
  match uploadedFile with
  | some _ => some { snapshot := s.response }
  | none => none

/-- sendFile, catch callback on upload failure: appends the error
message to the captured snapshot of the response list. -/
def sendFileCatch (u : PendingUpload) (s : AppState) : AppState :=
  { s with response := u.snapshot ++ [uploadErrorMessage] }

/-- parseCSV: starts a FileReader read of the file text; the pending
record carries the text its onload callback will receive. -/
def parseCSV (file : FileData) : PendingParse :=
  { content := file.content }

/-- Splits a character list at every occurrence of the separator, the
accumulator holding the current field reversed. -/
def splitChars (sep : Char) : List Char → List Char → List (List Char)
  | acc, [] => [acc.reverse]
  | acc, x :: xs =>
      if x = sep then acc.reverse :: splitChars sep [] xs
      else splitChars sep (x :: acc) xs

/-- Splits a string at every occurrence of the separator character. -/
def splitOnSep (sep : Char) (s : String) : List String :=
  (splitChars sep [] s.data).map String.mk

/-- Value of a digit string, none when a non-digit occurs. -/
def digitsValAux : List Char → Nat → Option Nat
  | [], n => some n
  | c :: cs, n =>
      if c.isDigit then digitsValAux cs (n * 10 + (c.toNat - 48)) else none

/-- Integer value of a decimal numeral with an optional leading minus
sign; none when the string is not such a numeral. -/
def intVal? (s : String) : Option Int :=
  match s.data with
  | [] => none
  | '-' :: cs =>
      match cs with
      | [] => none
      | _ => (digitsValAux cs 0).map (fun n => -(n : Int))
  | cs => (digitsValAux cs 0).map (fun n => (n : Int))

/-- Automatic per-cell type inference.
Modelled from the spec: a literal empty cell becomes null, "true" and
"false" become booleans, an integer numeral becomes a number, and
everything else remains the original string (decimals and dates, which
no claim touches, stay strings). -/
def autoTypeCell (v : String) : CellValue :=
  if v = "" then .null
  else if v = "true" then .boolean true
  else if v = "false" then .boolean false
  else
    match intVal? v with
    | some n => .number n
    | none => .str v

/-- Lines of a CSV text; a trailing newline does not create an extra
empty row.  Modelled from the spec: header-aware parsing treats the
first line as the header and each further line as one data row. -/
def csvLines (text : String) : List String :=
  let ls := splitOnSep '\n' text
  match ls.getLast? with
  | some "" => ls.dropLast
  | _ => ls

/-- Column names of a CSV text: the header line split on commas.
Modelled from the spec: column order equals the source header order. -/
def headerCols (text : String) : List String :=
  match csvLines text with
  | [] => []
  | header :: _ => splitOnSep ',' header

/-- Count of data rows of a CSV text: every line after the header. -/
def dataRowCount (text : String) : Nat :=
  ((csvLines text).drop 1).length

/-- Header-aware CSV parse with automatic type inference.
Modelled from the spec: the library (d3-dsv csvParse with autoType) is
an external collaborator whose internals are out of scope; per the
spec, each data line yields one row mapping the column names, in header
order, to inferred cell values; a missing cell reads as empty. -/
def csvParse (text : String) : List Row :=
  match csvLines text with
  | [] => []
  | header :: dataLines =>
      let cols := splitOnSep ',' header
      dataLines.map (fun line =>
        let cells := splitOnSep ',' line
        cols.enum.map (fun ic => (ic.2, autoTypeCell (cells.getD ic.1 ""))))

/-- parseCSV, onload callback: parses the delivered text and stores
only the first 50 rows as the preview data. -/
def parseCSVOnload (p : PendingParse) (s : AppState) : AppState :=
  { s with csvData := some ((csvParse p.content).take 50) }

/-- handleFileUpload: takes the event file list, rejects a missing or
non-CSV-typed first file with a conversation error message, and
otherwise stores the file and launches the read and the upload. -/
def handleFileUpload (files : List FileData) (s : AppState) :
    AppState × Option PendingParse × Option PendingUpload :=
  let uploadedFile := files[0]?
  if ! isCSV uploadedFile then
    ({ s with response := s.response ++ [csvErrorMessage] }, none, none)
  else
    ({ s with file := uploadedFile },
     uploadedFile.map parseCSV,
     sendFile uploadedFile s)

/-- handleDrop: clears the drag indicator, then proceeds exactly like
handleFileUpload on the dropped file list. -/
def handleDrop (files : List FileData) (s0 : AppState) :
    AppState × Option PendingParse × Option PendingUpload :=
  let s : AppState := { s0 with dragActive := false }
  let droppedFile := files[0]?
  if ! isCSV droppedFile then
    ({ s with response := s.response ++ [csvErrorMessage] }, none, none)
  else
    ({ s with file := droppedFile },
     droppedFile.map parseCSV,
     sendFile droppedFile s)

/-- handleDrag: a drag-enter or drag-over event sets the indicator. -/
def handleDrag (s : AppState) : AppState :=
  { s with dragActive := true }

/-- handleDragLeave: clears the indicator. -/
def handleDragLeave (s : AppState) : AppState :=
  { s with dragActive := false }

/-- togglePreview: flips the preview-visible flag. -/
def togglePreview (s : AppState) : AppState :=
  { s with showPreview := ! s.showPreview }

/-- Full session state: the component state plus the outstanding
asynchronous operations, each carrying its callback closure data. -/
structure SysState where
  app : AppState
  pendingQueries : List PendingQuery
  pendingParses : List PendingParse
  pendingUploads : List PendingUpload
deriving DecidableEq, Repr

/-- Initial session state: initial component state, nothing in flight. -/
def initSys : SysState :=
  { app := initialState
    pendingQueries := []
    pendingParses := []
    pendingUploads := [] }

/-- Events of the session: user actions and completion callbacks.
Indices select which outstanding operation completes; an out-of-range
index is a non-event. -/
inductive Event where
  | input (t : String)
  | send
  | querySuccess (i : Nat) (d : QueryResponse)
  | queryFailure (i : Nat)
  | fileUpload (files : List FileData)
  | fileDrop (files : List FileData)
  | dragOver
  | dragLeave
  | parseLoad (i : Nat)
  | uploadSuccess (i : Nat)
  | uploadFailure (i : Nat)
  | preview
deriving DecidableEq, Repr

/-- One transition of the session.  Query failure and decode failure
reach no handler in the source (there is no catch on the query fetch),
so they only retire the pending operation; upload success ignores its
payload; upload failure runs the catch callback. -/
def step (e : Event) (σ : SysState) : SysState :=
  match e with
  | .input t => { σ with app := handleMessage t σ.app }
  | .send =>
      let aq := sendMessage σ.app
      { σ with app := aq.1, pendingQueries := σ.pendingQueries ++ aq.2.toList }
  | .querySuccess i d =>
      match σ.pendingQueries[i]? with
      | some p =>
          { σ with app := queryThen p d σ.app
                   pendingQueries := σ.pendingQueries.eraseIdx i }
      | none => σ
  | .queryFailure i =>
      { σ with pendingQueries := σ.pendingQueries.eraseIdx i }
  | .fileUpload files =>
      let r := handleFileUpload files σ.app
      { σ with app := r.1
               pendingParses := σ.pendingParses ++ r.2.1.toList
               pendingUploads := σ.pendingUploads ++ r.2.2.toList }
  | .fileDrop files =>
      let r := handleDrop files σ.app
      { σ with app := r.1
               pendingParses := σ.pendingParses ++ r.2.1.toList
               pendingUploads := σ.pendingUploads ++ r.2.2.toList }
  | .dragOver => { σ with app := handleDrag σ.app }
  | .dragLeave => { σ with app := handleDragLeave σ.app }
  | .parseLoad i =>
      match σ.pendingParses[i]? with
      | some pp =>
          { σ with app := parseCSVOnload pp σ.app
                   pendingParses := σ.pendingParses.eraseIdx i }
      | none => σ
  | .uploadSuccess i =>
      { σ with pendingUploads := σ.pendingUploads.eraseIdx i }
  | .uploadFailure i =>
      match σ.pendingUploads[i]? with
      | some u =>
          { σ with app := sendFileCatch u σ.app
                   pendingUploads := σ.pendingUploads.eraseIdx i }
      | none => σ
  | .preview => { σ with app := togglePreview σ.app }

/-- Bot-attributed messages a query reply folds in: a chart message and
a text message when the body has a chart field, the text message alone
otherwise. -/
def queryBotMessages (d : QueryResponse) : List Message :=
  match d.chart with
  | some c => [{ type := .botChart, chartSpec := some c },
               { type := .bot, text := some d.response }]
  | none => [{ type := .bot, text := some d.response }]

/-- Freshness of an event for a state: a completion callback that
rewrites the conversation is fresh when its captured snapshot still
agrees with the live conversation; every other event is always fresh. -/
def freshFor : Event → SysState → Prop
  | .querySuccess i _, σ =>
      ∀ p, σ.pendingQueries[i]? = some p →
        p.snapshot ++ [p.newMessage] = σ.app.response
  | .uploadFailure i, σ =>
      ∀ u, σ.pendingUploads[i]? = some u → u.snapshot = σ.app.response
  | _, _ => True

/-- Session reached by sending "a", then "b", while both queries are
still in flight. -/
def overlapTrace : SysState :=
  step .send (step (.input "b") (step .send (step (.input "a") initSys)))

/-- Session after the reply to the first query arrives while the second
exchange is still visible in the conversation. -/
def overlapTraceAfter : SysState :=
  step (.querySuccess 0 { response := "ra", chart := none }) overlapTrace

/-- Session reached by typing "hello" and sending it, with the single
query still in flight. -/
def helloTrace : SysState :=
  step .send (step (.input "hello") initSys)

/-- The pending query that the "hello" dispatch launches. -/
def helloPending : PendingQuery :=
  { snapshot := initialState.response
    newMessage := { type := .user, text := some "hello" }
    prompt := "hello" }

/-- Component state in the middle of a drag gesture. -/
def dragState : AppState :=
  { initialState with dragActive := true }

/-- A file whose declared media type is not CSV. -/
def plainFile : FileData :=
  { type := "text/plain", content := "x" }

end App

namespace App

/-- C1: for every query response, a body with a chart field folds in
exactly two bot-attributed messages, the bot-chart message carrying
that chart spec followed by the bot text message carrying the response
text, in that order; a body without a chart field folds in exactly the
bot text message. -/
theorem query_reply_bot_messages (p : PendingQuery) (d : QueryResponse) (s : AppState) :
    (queryThen p d s).response = (p.snapshot ++ [p.newMessage]) ++ queryBotMessages d ∧
    (∀ m ∈ queryBotMessages d, m.type ≠ .user) ∧
    (∀ c, d.chart = some c →
      queryBotMessages d =
        [{ type := .botChart, chartSpec := some c },
         { type := .bot, text := some d.response }]) ∧
    (d.chart = none →
      queryBotMessages d = [{ type := .bot, text := some d.response }]) := by
  refine ⟨?_, ?_, ?_, ?_⟩ <;>
    cases hd : d.chart <;>
      simp [queryThen, queryBotMessages, hd]

/-- C1 witness: concrete evaluation of the fold-in on a reply that
carries a chart. -/
theorem query_reply_bot_messages_witness :
    (queryThen { snapshot := initialState.response,
                 newMessage := { type := .user, text := some "hi" },
                 prompt := "hi" }
               { response := "done", chart := some { payload := "spec" } }
               initialState).response
      = (initialState.response ++ [{ type := .user, text := some "hi" }])
          ++ queryBotMessages { response := "done", chart := some { payload := "spec" } } :=
  (query_reply_bot_messages
    { snapshot := initialState.response,
      newMessage := { type := .user, text := some "hi" },
      prompt := "hi" }
    { response := "done", chart := some { payload := "spec" } }
    initialState).1

/-- C2: sending with empty input text changes nothing and launches no
request; sending with non-empty text, whitespace-only included,
appends exactly one user message carrying that text, clears the input,
and launches exactly one query whose body prompt is that text. -/
theorem sendMessage_dispatch (s : AppState) :
    (s.message = "" → sendMessage s = (s, none)) ∧
    (s.message ≠ "" →
      (sendMessage s).1
          = { s with response := s.response ++ [{ type := .user, text := some s.message }],
                     message := "" } ∧
      (sendMessage s).2
          = some { snapshot := s.response,
                   newMessage := { type := .user, text := some s.message },
                   prompt := s.message }) := by
  constructor
  · intro h
    simp [sendMessage, h]
  · intro h
    simp [sendMessage, h]

/-- C2 witness: a whitespace-only input is treated as non-empty and is
dispatched. -/
theorem sendMessage_dispatch_witness :
    (" " : String) ≠ "" ∧
    (sendMessage { initialState with message := " " }).2
        = some { snapshot := initialState.response,
                 newMessage := { type := .user, text := some " " },
                 prompt := " " } :=
  ⟨by decide, ((sendMessage_dispatch { initialState with message := " " }).2 (by decide)).2⟩

/-- C4: the conversation produced by a query reply is the dispatch-time
snapshot plus the captured user message plus the new bot messages; it
does not depend on the live component state at reply time, so messages
added by an exchange that completed in between are absent. -/
theorem query_reply_uses_snapshot (p : PendingQuery) (d : QueryResponse) (s s' : AppState) :
    (queryThen p d s).response = p.snapshot ++ p.newMessage :: queryBotMessages d ∧
    (queryThen p d s).response = (queryThen p d s').response := by
  cases hd : d.chart <;> simp [queryThen, queryBotMessages, hd]

/-- C7: an upload failure appends the upload error message to the
captured conversation, and leaves the parsed preview rows and every
other state slot unchanged. -/
theorem upload_failure_appends_error (u : PendingUpload) (s : AppState)
    (h : u.snapshot = s.response) :
    (sendFileCatch u s).response = s.response ++ [uploadErrorMessage] ∧
    (sendFileCatch u s).csvData = s.csvData ∧
    (sendFileCatch u s).file = s.file ∧
    (sendFileCatch u s).message = s.message ∧
    (sendFileCatch u s).dragActive = s.dragActive ∧
    (sendFileCatch u s).showPreview = s.showPreview := by
  simp [sendFileCatch, h]

/-- C7 witness: concrete upload failure against the initial state with a
stored preview, showing the preview is retained. -/
theorem upload_failure_appends_error_witness :
    ({ snapshot := initialState.response } : PendingUpload).snapshot
        = initialState.response ∧
    (sendFileCatch { snapshot := initialState.response } initialState).response
        = initialState.response ++ [uploadErrorMessage] :=
  ⟨rfl, (upload_failure_appends_error { snapshot := initialState.response }
          initialState rfl).1⟩

/-- C8: a failed query fetch, transport rejection and decode failure
alike, reaches no handler: the component state is exactly what it was,
only the pending operation is retired. -/
theorem query_failure_silent (σ : SysState) (i : Nat) :
    (step (.queryFailure i) σ).app = σ.app ∧
    (step (.queryFailure i) σ).pendingQueries = σ.pendingQueries.eraseIdx i := by
  constructor <;> rfl

/-- C9: dispatching a non-empty message clears the input text at once,
and no reply or failure callback ever changes the input text again. -/
theorem input_cleared_at_dispatch (s : AppState) (h : s.message ≠ "") :
    (sendMessage s).1.message = "" ∧
    (∀ p d t, (queryThen p d t).message = t.message) ∧
    (∀ σ i, (step (.queryFailure i) σ).app.message = σ.app.message) := by
  refine ⟨?_, ?_, ?_⟩
  · simp [sendMessage, h]
  · intro p d t
    cases hd : d.chart <;> simp [queryThen, hd]
  · intro σ i
    rfl

/-- C9 witness: concrete dispatch of "hi" leaves an empty input. -/
theorem input_cleared_at_dispatch_witness :
    ({ initialState with message := "hi" } : AppState).message ≠ "" ∧
    (sendMessage { initialState with message := "hi" }).1.message = "" :=
  ⟨by decide, (input_cleared_at_dispatch { initialState with message := "hi" } (by decide)).1⟩

end App

namespace App

/-- C3 (counterexample): with two queries in flight, the reply to the
first rewrites the conversation from its stale snapshot and the second
user message, present before the transition, is gone afterwards. -/
theorem overlap_reply_removes_message :
    ({ type := .user, text := some "b" } : Message) ∈ overlapTrace.app.response ∧
    ({ type := .user, text := some "b" } : Message) ∉ overlapTraceAfter.app.response ∧
    overlapTraceAfter
      = step (.querySuccess 0 { response := "ra", chart := none }) overlapTrace := by
  refine ⟨by decide, by decide, rfl⟩

/-- C3 (amended): every user-action transition only adds messages at
the end of the conversation, and so does every callback whose captured
snapshot still agrees with the live conversation; a reply callback that
is stale (messages of another exchange arrived in between) is what can
remove messages, as the counterexample shows. -/
theorem step_appends_when_fresh (e : Event) (σ : SysState) (h : freshFor e σ) :
    ∃ t, (step e σ).app.response = σ.app.response ++ t := by
  cases e with
  | input t => exact ⟨[], by simp [step, handleMessage]⟩
  | send =>
      by_cases hm : σ.app.message = ""
      · exact ⟨[], by simp [step, sendMessage, hm]⟩
      · exact ⟨[{ type := .user, text := some σ.app.message }],
               by simp [step, sendMessage, hm]⟩
  | querySuccess i d =>
      cases hp : σ.pendingQueries[i]? with
      | none => exact ⟨[], by simp [step, hp]⟩
      | some p =>
          refine ⟨queryBotMessages d, ?_⟩
          have hs := h p hp
          cases hd : d.chart <;>
            simp [step, hp, queryThen, queryBotMessages, hd, ← hs]
  | queryFailure i => exact ⟨[], by simp [step]⟩
  | fileUpload files =>
      by_cases hc : isCSV files[0]? = true
      · exact ⟨[], by simp [step, handleFileUpload, hc]⟩
      · exact ⟨[csvErrorMessage],
               by simp [step, handleFileUpload, Bool.eq_false_iff.2 hc]⟩
  | fileDrop files =>
      by_cases hc : isCSV files[0]? = true
      · exact ⟨[], by simp [step, handleDrop, hc]⟩
      · exact ⟨[csvErrorMessage],
               by simp [step, handleDrop, Bool.eq_false_iff.2 hc]⟩
  | dragOver => exact ⟨[], by simp [step, handleDrag]⟩
  | dragLeave => exact ⟨[], by simp [step, handleDragLeave]⟩
  | parseLoad i =>
      cases hp : σ.pendingParses[i]? with
      | none => exact ⟨[], by simp [step, hp]⟩
      | some pp => exact ⟨[], by simp [step, hp, parseCSVOnload]⟩
  | uploadSuccess i => exact ⟨[], by simp [step]⟩
  | uploadFailure i =>
      cases hu : σ.pendingUploads[i]? with
      | none => exact ⟨[], by simp [step, hu]⟩
      | some u =>
          refine ⟨[uploadErrorMessage], ?_⟩
          have hs := h u hu
          simp [step, hu, sendFileCatch, hs]
  | preview => exact ⟨[], by simp [step, togglePreview]⟩

/-- C3 witness: a fresh reply callback against the initial exchange
appends at the end. -/
theorem step_appends_when_fresh_witness :
    freshFor (.querySuccess 0 { response := "hi there", chart := none }) helloTrace ∧
    ∃ t, (step (.querySuccess 0 { response := "hi there", chart := none })
              helloTrace).app.response
          = helloTrace.app.response ++ t := by
  have hf : freshFor (.querySuccess 0 { response := "hi there", chart := none })
      helloTrace := by
    intro p hp
    rw [show helloTrace.pendingQueries[0]? = some helloPending from rfl] at hp
    cases hp
    decide
  exact ⟨hf, step_appends_when_fresh _ _ hf⟩

end App

namespace App

/-- C5 (counterexample): dropping a non-CSV-typed file while a drag is
active appends the error message but also clears the drag-active flag,
so its state does not stay unchanged apart from the conversation. -/
theorem drop_rejection_clears_drag :
    dragState.dragActive = true ∧
    handleDrop [plainFile] dragState
      ≠ ({ dragState with response := dragState.response ++ [csvErrorMessage] },
         none, none) ∧
    (handleDrop [plainFile] dragState).1.dragActive = false ∧
    (handleDrop [plainFile] dragState).1.response
      = dragState.response ++ [csvErrorMessage] := by
  refine ⟨rfl, by decide, by decide, by decide⟩

/-- C5 (amended): a submitted file whose declared media type is not
exactly text/csv adds exactly one error bot message; no read or upload
is launched and the file slot, preview rows, input text and preview
flag are unchanged — the only further effect is that a drop event
always clears the drag-active flag. -/
theorem nonCSV_file_rejected (files : List FileData) (s : AppState) (f : FileData)
    (h0 : files[0]? = some f) (h : f.type ≠ "text/csv") :
    handleFileUpload files s
      = ({ s with response := s.response ++ [csvErrorMessage] }, none, none) ∧
    handleDrop files s
      = ({ s with dragActive := false
                  response := s.response ++ [csvErrorMessage] }, none, none) := by
  have hc : isCSV files[0]? = false := by
    simp [isCSV, h0, h]
  constructor <;> simp [handleFileUpload, handleDrop, hc]

/-- C5 witness: concrete rejection of a plain-text file from the initial
state. -/
theorem nonCSV_file_rejected_witness :
    ([plainFile][0]? = some plainFile) ∧ plainFile.type ≠ "text/csv" ∧
    handleFileUpload [plainFile] initialState
      = ({ initialState with
             response := initialState.response ++ [csvErrorMessage] }, none, none) :=
  ⟨rfl, by decide,
   (nonCSV_file_rejected [plainFile] initialState plainFile rfl (by decide)).1⟩

/-- C10 (counterexample): a drop event with an empty file list while a
drag is active clears the drag-active flag, so it is not free of state
changes beyond the error message. -/
theorem empty_drop_clears_drag :
    isCSV none = false ∧
    (handleDrop [] dragState).1.dragActive ≠ dragState.dragActive ∧
    (handleDrop [] dragState).1.response
      = dragState.response ++ [csvErrorMessage] := by
  refine ⟨rfl, by decide, by decide⟩

/-- C10 (amended): a change or drop event with an empty file list does
not crash; isCSV is falsy on a missing file and the event is handled
exactly like a non-CSV file: one error bot message is appended, no read
or upload is launched, and no other state changes except that a drop
event always clears the drag-active flag. -/
theorem empty_file_list_rejected (s : AppState) :
    isCSV none = false ∧
    handleFileUpload [] s
      = ({ s with response := s.response ++ [csvErrorMessage] }, none, none) ∧
    handleDrop [] s
      = ({ s with dragActive := false
                  response := s.response ++ [csvErrorMessage] }, none, none) := by
  refine ⟨rfl, ?_, ?_⟩ <;> simp [handleFileUpload, handleDrop, isCSV]

end App

namespace App

/-- C6: the stored preview is the first 50 parsed rows: its length is
the data row count when that count is at most 50, and exactly the first
50 rows in file order otherwise; every row lists its columns in header
order. -/
theorem preview_caps_rows (text : String) (s : AppState) :
    (parseCSVOnload { content := text } s).csvData = some ((csvParse text).take 50) ∧
    (csvParse text).length = dataRowCount text ∧
    (dataRowCount text ≤ 50 → ((csvParse text).take 50).length = dataRowCount text) ∧
    (50 < dataRowCount text →
      ((csvParse text).take 50).length = 50 ∧
      csvParse text = (csvParse text).take 50 ++ (csvParse text).drop 50) ∧
    (∀ r ∈ csvParse text, r.map Prod.fst = headerCols text) := by
  have hlen : (csvParse text).length = dataRowCount text := by
    cases h : csvLines text with
    | nil => simp [csvParse, dataRowCount, h]
    | cons header dataLines => simp [csvParse, dataRowCount, h]
  refine ⟨rfl, hlen, ?_, ?_, ?_⟩
  · intro hle
    rw [List.length_take, hlen]
    omega
  · intro hgt
    refine ⟨?_, (List.take_append_drop 50 _).symm⟩
    rw [List.length_take, hlen]
    omega
  · intro r hr
    cases h : csvLines text with
    | nil => simp [csvParse, h] at hr
    | cons header dataLines =>
        simp only [csvParse, h] at hr
        obtain ⟨line, _, rfl⟩ := List.mem_map.1 hr
        have hcomp :
            (Prod.fst ∘ fun ic : Nat × String =>
                (ic.2, autoTypeCell ((splitOnSep ',' line).getD ic.1 "")))
              = Prod.snd := rfl
        rw [List.map_map, hcomp]
        simp [headerCols, h]

/-- C6 witness: a two-row CSV text keeps both rows in the preview. -/
theorem preview_caps_rows_witness :
    dataRowCount "a,b\n1,2\n3,4" ≤ 50 ∧
    ((csvParse "a,b\n1,2\n3,4").take 50).length = dataRowCount "a,b\n1,2\n3,4" :=
  ⟨by decide, (preview_caps_rows "a,b\n1,2\n3,4" initialState).2.2.1 (by decide)⟩

end App
